import Mathlib

/-!
Verification of the canvas-mcp tool-handler layer.

The repository's tool handlers (src/canvas_mcp/tools/*.py) are shallowly
embedded below: JSON payloads become the inductive `JVal`, Python dict/list
operations become explicit functions (operations that can raise in Python
return `Except String`), and every network interaction performed by a handler
is recorded in an explicit call log.  Python numbers (ints and floats alike)
are modelled by the exact rational type `PyNum`, whose operations normalise
eagerly, so `str()` of whole values agrees with Python; float formatting is
approximated by exact rational rounding and no claim below depends on a
formatting corner case.

The generic request layer (`core/client.py`) and the identifier cache
(`core/cache.py`) are imported by the tools but their sources are not part of
the material under verification; where a claim is decided by them they are
modelled from the specification, as marked on each such definition.
-/

/-- An exact rational with no bundled invariants: the model of a Python
number.  All constructors used by the embedding produce a positive
denominator, and every arithmetic operation renormalises, so values stay
canonical. -/
structure PyNum where
  num : Int
  den : Nat
  deriving Repr, DecidableEq

namespace PyNum

/-- reduce to lowest terms (zero becomes 0/1) -/
def norm (a : PyNum) : PyNum :=
  let g := Nat.gcd a.num.natAbs a.den
  if g == 0 then a else ⟨a.num / (g : Int), a.den / g⟩

/-- a Python int -/
def ofInt (n : Int) : PyNum := ⟨n, 1⟩

/-- a Python int from a Nat -/
def ofNat (n : Nat) : PyNum := ⟨(n : Int), 1⟩

instance (n : Nat) : OfNat PyNum n := ⟨⟨(n : Int), 1⟩⟩

def add (a b : PyNum) : PyNum :=
  norm ⟨a.num * (b.den : Int) + b.num * (a.den : Int), a.den * b.den⟩

def sub (a b : PyNum) : PyNum :=
  norm ⟨a.num * (b.den : Int) - b.num * (a.den : Int), a.den * b.den⟩

def mul (a b : PyNum) : PyNum :=
  norm ⟨a.num * b.num, a.den * b.den⟩

/-- exact division; the embedding only applies it under the source's
nonzero-denominator guards, so the junk value at zero is never reached -/
def div (a b : PyNum) : PyNum :=
  if b.num < 0 then norm ⟨-(a.num * (b.den : Int)), a.den * b.num.natAbs⟩
  else norm ⟨a.num * (b.den : Int), a.den * b.num.natAbs⟩

/-- numeric equality (cross multiplication) -/
def beq (a b : PyNum) : Bool :=
  a.num * (b.den : Int) == b.num * (a.den : Int)

instance : BEq PyNum := ⟨beq⟩

/-- `a <= b` (valid for the positive denominators the embedding produces) -/
def ble (a b : PyNum) : Bool :=
  decide (a.num * (b.den : Int) ≤ b.num * (a.den : Int))

/-- `a < b` -/
def blt (a b : PyNum) : Bool :=
  decide (a.num * (b.den : Int) < b.num * (a.den : Int))

/-- Python `min(a, b)`: returns the first argument on ties -/
def pymin (a b : PyNum) : PyNum :=
  if b.blt a then b else a

/-- the floor of the value (Euclidean division by the positive denominator) -/
def floor (a : PyNum) : Int :=
  a.num.ediv (a.den : Int)

/-- Python `str()`: whole values print as ints; the non-integral repr is an
approximation no claim depends on -/
def pyRepr (a : PyNum) : String :=
  let c := a.norm
  if c.den == 1 then toString c.num
  else toString c.num ++ "/" ++ toString c.den

/-- Python `str()` of a float: a whole float still prints one decimal -/
def floatRepr (a : PyNum) : String :=
  let c := a.norm
  if c.den == 1 then toString c.num ++ ".0"
  else toString c.num ++ "/" ++ toString c.den

end PyNum

/-- rounding to an integer, ties to even — the rounding Python's fixed-point
float formatting applies, transplanted to exact rationals -/
def roundHalfEven (q : PyNum) : Int :=
  let f := q.floor
  let r := q.sub ⟨f, 1⟩
  if r.blt ⟨1, 2⟩ then f
  else if (⟨1, 2⟩ : PyNum).blt r then f + 1
  else if f % 2 == 0 then f else f + 1

/-- Python `f"{q:.0f}"`, modelled on exact rationals -/
def fmt0 (q : PyNum) : String :=
  toString (roundHalfEven q)

/-- Python `f"{q:.1f}"`, modelled on exact rationals -/
def fmt1 (q : PyNum) : String :=
  let n := roundHalfEven (q.mul 10)
  let a := n.natAbs
  (if n < 0 then "-" else "") ++ toString (a / 10) ++ "." ++ toString (a % 10)

/-- JSON values as produced by the Canvas API. -/
inductive JVal where
  | null : JVal
  | bool : Bool → JVal
  | num : PyNum → JVal
  | str : String → JVal
  | arr : List JVal → JVal
  | obj : List (String × JVal) → JVal
  deriving Repr, Inhabited

namespace JVal

/-- Python truthiness of a value (`if v:`). -/
def pyTruthy : JVal → Bool
  | null => false
  | bool b => b
  | num q => !(q.beq 0)
  | str s => s.length != 0
  | arr xs => xs.length != 0
  | obj kvs => kvs.length != 0

/-- Python `str(v)` / f-string interpolation of a value.  Container reprs are
approximated; no claim depends on them. -/
def pyStr : JVal → String
  | null => "None"
  | bool b => if b then "True" else "False"
  | num q => q.pyRepr
  | str s => s
  | arr _ => "[...]"
  | obj _ => "\x7b...\x7d"

/-- `isinstance(v, dict)` -/
def isObj : JVal → Bool
  | obj _ => true
  | _ => false

/-- key lookup on a dict (first binding wins) -/
def lookup : JVal → String → Option JVal
  | obj kvs, k => (kvs.find? (fun p => p.1 == k)).map (fun p => p.2)
  | _, _ => none

/-- Python `k in v` for a dict receiver (`false` on non-dicts; the sources
only use it under an `isinstance(v, dict)` guard). -/
def hasKey (v : JVal) (k : String) : Bool :=
  match v with
  | obj kvs => kvs.any (fun p => p.1 == k)
  | _ => false

/-- `isinstance(v, dict) and "error" in v` — the error-result test every
handler applies to Gateway results. -/
def isErrorDict (v : JVal) : Bool :=
  v.isObj && v.hasKey "error"

/-- The value interpolated by `f"... {v['error']}"`; only used under
`isErrorDict`. -/
def errMsg (v : JVal) : String :=
  ((v.lookup "error").getD null).pyStr

/-- Python `v.get(k, dflt)`: raises AttributeError when the receiver is not a
dict. -/
def pyGet (v : JVal) (k : String) (dflt : JVal) : Except String JVal :=
  match v with
  | obj kvs => .ok (((kvs.find? (fun p => p.1 == k)).map (fun p => p.2)).getD dflt)
  | _ => .error "AttributeError: .get on non-dict"

/-- Python iteration `for x in v`: lists yield elements, dicts yield their
keys, strings their characters; other values raise TypeError. -/
def pyIterList : JVal → Except String (List JVal)
  | arr xs => .ok xs
  | obj kvs => .ok (kvs.map (fun p => str p.1))
  | str s => .ok (s.toList.map (fun c => str (String.mk [c])))
  | _ => .error "TypeError: not iterable"

/-- Python `len(v)`: raises TypeError on values without a length. -/
def pyLen : JVal → Except String Nat
  | arr xs => .ok xs.length
  | obj kvs => .ok kvs.length
  | str s => .ok s.length
  | _ => .error "TypeError: object has no len"

/-- numeric coercion for arithmetic and comparisons (bools count as 0/1) -/
def asNum : JVal → Except String PyNum
  | num q => .ok q
  | bool b => .ok (if b then 1 else 0)
  | _ => .error "TypeError: unsupported operand type"

/-- Python `v == n` for a numeric literal `n`: equality never raises. -/
def pyEqNum (v : JVal) (n : PyNum) : Bool :=
  match v with
  | num q => q.beq n
  | bool b => PyNum.beq (if b then 1 else 0) n
  | _ => false

/-- Python `v < n`: raises TypeError on non-numbers. -/
def pyLtNum (v : JVal) (n : PyNum) : Except String Bool :=
  (asNum v).map (fun q => q.blt n)

/-- Python `v > n`: raises TypeError on non-numbers. -/
def pyGtNum (v : JVal) (n : PyNum) : Except String Bool :=
  (asNum v).map (fun q => n.blt q)

/-- Python `a or b` -/
def pyOr (a b : JVal) : JVal :=
  if a.pyTruthy then a else b

end JVal

/-- `x or 0`, the idiom the analytics code applies to every fetched count -/
def orZero (v : JVal) : JVal :=
  JVal.pyOr v (JVal.num 0)

/-- One network interaction observed while a handler runs: a course-id
resolution (carrying how many upstream requests it issued), one
`fetch_all_paginated_results` traversal, or one `make_canvas_request` call. -/
inductive CallEvent where
  | resolveNet : Nat → CallEvent
  | fetchAll : String → CallEvent
  | request : String → String → CallEvent
  deriving Repr, DecidableEq

/-- number of upstream requests issued by course-id resolutions in a log -/
def netResolutions : List CallEvent → Nat
  | [] => 0
  | CallEvent.resolveNet n :: rest => n + netResolutions rest
  | _ :: rest => netResolutions rest

/-- a Gateway call that is not a plain read -/
def isMutating : CallEvent → Bool
  | CallEvent.request m _ => m != "get"
  | _ => false

/-- Upstream responses, keyed by path (for paginated fetches) and by
method/path (for single requests).  A mock Gateway for running handlers. -/
structure Gateway where
  fetchResp : String → JVal
  reqResp : String → String → JVal

/-- The result of one physical page request inside a paginated fetch:
`RequestResult` of the spec, specialised to a page of JSON objects. -/
inductive PageResult where
  | success : List JVal → PageResult
  | failure : String → PageResult
  deriving Repr

/-- Modelled from the spec: `fetch_all_paginated_results` lives in
`core/client.py`, which is not part of the sources under `src/`.  Per spec
section 4.1 it follows server pagination cursors page by page, concatenates
pages in server order, and stops on the first page failure, returning that
failure with all partial results discarded. -/
def fetch_all_paginated_results : List PageResult → Except String (List JVal)
  | [] => .ok []
  | PageResult.failure m :: _ => .error m
  | PageResult.success xs :: rest =>
    match fetch_all_paginated_results rest with
    | .ok ys => .ok (xs ++ ys)
    | .error m => .error m

/-- how the paginated fetch result is surfaced to the tool handlers: a JSON
array on success, an error dict on failure -/
def fetchResultToJVal : Except String (List JVal) → JVal
  | .ok xs => JVal.arr xs
  | .error m => JVal.obj [("error", JVal.str m)]

/-- Modelled from the spec: the identifier cache of `core/cache.py` (not under
`src/`), a process-wide mapping from course-code strings to numeric ids,
written only by resolution. -/
structure CourseCache where
  mapping : List (String × Nat)
  deriving Repr, DecidableEq

/-- a purely numeric (numeric-looking) course identifier -/
def isNumericLooking (s : String) : Bool :=
  s.length != 0 && s.toList.all Char.isDigit

/-- the numeric value of a digit string (`int(s)`) -/
def strToNat (s : String) : Nat :=
  s.toList.foldl (fun n c => n * 10 + (c.toNat - 48)) 0

/-- The upstream course-search endpoint used on a cache miss: for a course
code it may return a matching course (numeric id and code field). -/
structure CourseSearch where
  byCode : String → Option (Nat × String)

/-- Modelled from the spec: `get_course_id` (`resolve`) of `core/cache.py`.
A numeric-looking identifier is returned unchanged with no network call;
otherwise the cache is consulted, and on a miss one Gateway search request is
issued and the mapping is stored.  The third component counts the network
requests issued by this resolution. -/
def get_course_id (search : CourseSearch) (cache : CourseCache) (identifier : String) :
    Except String Nat × CourseCache × Nat :=
  if isNumericLooking identifier then
    (.ok (strToNat identifier), cache, 0)
  else
    match cache.mapping.find? (fun p => p.1 == identifier) with
    | some p => (.ok p.2, cache, 0)
    | none =>
      match search.byCode identifier with
      | some idc => (.ok idc.1, { mapping := (identifier, idc.1) :: cache.mapping }, 1)
      | none => (.error "NotFound", cache, 1)

/-- Modelled from the spec: `get_course_code` (`display_code`) of
`core/cache.py`: reverse lookup through the same cache, `none` when the id is
unknown. -/
def get_course_code (cache : CourseCache) (cid : Nat) : Option String :=
  (cache.mapping.find? (fun p => p.2 == cid)).map (fun p => p.1)

/-! ## Discussion analytics (src/canvas_mcp/tools/discussion_analytics.py)

Participation counting, categorization and the two handlers
`get_discussion_participation_summary` and `grade_discussion_participation`.
The per-user participation map `user_id -> (posts, replies)` is modelled as an
association list in insertion order, mirroring a Python dict. -/

/-- participation update for one original post (lines 68-73): create the
entry on first sight, then increment its post count -/
def addPost (part : List (String × Nat × Nat)) (uid : String) : List (String × Nat × Nat) :=
  if part.any (fun p => p.1 == uid) then
    part.map (fun p => if p.1 == uid then (p.1, p.2.1 + 1, p.2.2) else p)
  else part ++ [(uid, 1, 0)]

/-- participation update for one reply (lines 77-83) -/
def addReply (part : List (String × Nat × Nat)) (uid : String) : List (String × Nat × Nat) :=
  if part.any (fun p => p.1 == uid) then
    part.map (fun p => if p.1 == uid then (p.1, p.2.1, p.2.2 + 1) else p)
  else part ++ [(uid, 0, 1)]

/-- the inner reply loop of lines 76-83 -/
def processReplies (part : List (String × Nat × Nat)) :
    List JVal → Except String (List (String × Nat × Nat))
  | [] => .ok part
  | r :: rest => do
    let ruidv ← r.pyGet "user_id" (JVal.str "")
    if ruidv.pyStr == "" then processReplies part rest
    else processReplies (addReply part ruidv.pyStr) rest

/-- one iteration of the entry loop of lines 67-83: skip entries without a
user id, count the post, then count its recent replies -/
def processEntry (part : List (String × Nat × Nat)) (entry : JVal) :
    Except String (List (String × Nat × Nat)) := do
  let uidv ← entry.pyGet "user_id" (JVal.str "")
  if uidv.pyStr == "" then .ok part
  else
    let part1 := addPost part uidv.pyStr
    let repliesv ← entry.pyGet "recent_replies" (JVal.arr [])
    let replies ← repliesv.pyIterList
    processReplies part1 replies

/-- the entry loop of lines 67-83 over all discussion entries -/
def buildParticipationAux (part : List (String × Nat × Nat)) :
    List JVal → Except String (List (String × Nat × Nat))
  | [] => .ok part
  | e :: rest => do
    let p1 ← processEntry part e
    buildParticipationAux p1 rest

/-- participation map built from the fetched discussion entries (lines 63-83) -/
def buildParticipation (entries : List JVal) : Except String (List (String × Nat × Nat)) :=
  buildParticipationAux [] entries

/-- reply counting from the `/view` endpoint (lines 96-100): a reply is only
counted when the user has no counted reply yet -/
def viewAddReply (part : List (String × Nat × Nat)) (uid : String) : List (String × Nat × Nat) :=
  if part.any (fun p => p.1 == uid) then
    part.map (fun p => if p.1 == uid && p.2.2 == 0 then (p.1, p.2.1, p.2.2 + 1) else p)
  else part ++ [(uid, 0, 1)]

/-- the reply loop of lines 92-100 -/
def processViewReplies (part : List (String × Nat × Nat)) :
    List JVal → Except String (List (String × Nat × Nat))
  | [] => .ok part
  | r :: rest => do
    let ruidv ← r.pyGet "user_id" (JVal.str "")
    if ruidv.pyStr == "" then processViewReplies part rest
    else processViewReplies (viewAddReply part ruidv.pyStr) rest

/-- the view-entry loop of lines 91-100 -/
def processViewEntries (part : List (String × Nat × Nat)) :
    List JVal → Except String (List (String × Nat × Nat))
  | [] => .ok part
  | ve :: rest => do
    let repliesv ← ve.pyGet "replies" (JVal.arr [])
    let replies ← repliesv.pyIterList
    let p1 ← processViewReplies part replies
    processViewEntries p1 rest

/-- lines 85-102: fold the `/view` response into the participation map; the
whole block sits in a `try`/`except`, so any exception leaves the map
unchanged -/
def applyView (part : List (String × Nat × Nat)) (viewResp : JVal) : List (String × Nat × Nat) :=
  let attempt : Except String (List (String × Nat × Nat)) :=
    if !viewResp.isObj || !(viewResp.hasKey "error") then do
      let viewv ← viewResp.pyGet "view" (JVal.arr [])
      let ventries ← viewv.pyIterList
      processViewEntries part ventries
    else .ok part
  match attempt with
  | .ok p => p
  | .error _ => part

/-- lines 59-61: topic title defaulting.  Note the source enters the `.get`
branch exactly when the response is NOT an error dict — including when it is
not a dict at all, in which case `.get` raises. -/
def topicTitleOf (topicResp : JVal) : Except String JVal :=
  if !topicResp.isObj || !(topicResp.hasKey "error") then
    topicResp.pyGet "title" (JVal.str "Unknown Topic")
  else .ok (JVal.str "Unknown Topic")

/-- Python dict insertion: an existing key keeps its position and gets the
new value, a new key is appended -/
def dictInsert (m : List (String × JVal)) (k : String) (v : JVal) : List (String × JVal) :=
  if m.any (fun p => p.1 == k) then
    m.map (fun p => if p.1 == k then (k, v) else p)
  else m ++ [(k, v)]

/-- the dict comprehension of line 106:
`{str(s.get("id", "")): s.get("name", "Unknown") for s in student_list}` -/
def buildStudentMapAux (m : List (String × JVal)) :
    List JVal → Except String (List (String × JVal))
  | [] => .ok m
  | s :: rest => do
    let idv ← s.pyGet "id" (JVal.str "")
    let namev ← s.pyGet "name" (JVal.str "Unknown")
    buildStudentMapAux (dictInsert m idv.pyStr namev) rest

/-- student map `str(id) -> name` built from the fetched enrollment list -/
def buildStudentMap (students : List JVal) : Except String (List (String × JVal)) :=
  buildStudentMapAux [] students

/-- line 114: `participation.get(student_id, {"posts": 0, "replies": 0})` -/
def lookupPR (part : List (String × Nat × Nat)) (sid : String) : Nat × Nat :=
  ((part.find? (fun p => p.1 == sid)).map (fun p => p.2)).getD (0, 0)

/-- line 115: `has_posts = p["posts"] > 0` -/
def hasPosts (part : List (String × Nat × Nat)) (sid : String) : Bool :=
  (lookupPR part sid).1 > 0

/-- line 116: `has_replies = p["replies"] > 0` -/
def hasReplies (part : List (String × Nat × Nat)) (sid : String) : Bool :=
  (lookupPR part sid).2 > 0

/-- the four participation categories of lines 108-111 -/
structure Buckets where
  full_participants : List (String × JVal × Nat × Nat)
  posters_only : List (String × JVal × Nat × Nat)
  repliers_only : List (String × JVal × Nat × Nat)
  silent : List (String × JVal)
  deriving Repr

/-- the categorization loop of lines 113-125: every student of the map goes
to exactly one bucket, in map order -/
def categorize (smap : List (String × JVal)) (part : List (String × Nat × Nat)) : Buckets :=
  match smap with
  | [] => ⟨[], [], [], []⟩
  | (sid, name) :: rest =>
    let b := categorize rest part
    let p := lookupPR part sid
    if hasPosts part sid && hasReplies part sid then
      { b with full_participants := (sid, name, p.1, p.2) :: b.full_participants }
    else if hasPosts part sid then
      { b with posters_only := (sid, name, p.1, p.2) :: b.posters_only }
    else if hasReplies part sid then
      { b with repliers_only := (sid, name, p.1, p.2) :: b.repliers_only }
    else
      { b with silent := (sid, name) :: b.silent }

/-- line 130: `total_participants = total_students - len(silent)` -/
def total_participants (smap : List (String × JVal)) (b : Buckets) : Nat :=
  smap.length - b.silent.length

/-- Python `f"{s:<n}"`: left-justify to width n -/
def padRight (s : String) (n : Nat) : String :=
  s ++ String.mk (List.replicate (n - s.length) ' ')

/-- `await get_course_code(course_id) or course_identifier` (line 128):
the display code when cached and truthy, else the raw identifier -/
def displayOr (cdisp : Option String) (identifier : String) : String :=
  match cdisp with
  | some s => if s.length != 0 then s else identifier
  | none => identifier

/-- line 137: the percentage part of the overview line, guarded so a zero
student count yields the literal `"(0%)"` instead of a division -/
def participationOverviewSuffix (tp ts : Nat) : String :=
  if ts > 0 then
    "(" ++ fmt0 (((PyNum.ofNat tp).div (PyNum.ofNat ts)).mul 100) ++ "%)\n"
  else "(0%)\n"

/-- the report text of lines 132-169 -/
def discussionReport (courseDisplay : String) (topicTitle : JVal) (topicId : String)
    (smap : List (String × JVal)) (b : Buckets) : String :=
  let ts := smap.length
  let tp := total_participants smap b
  "Discussion Participation Summary\n"
  ++ "Course: " ++ courseDisplay ++ "\n"
  ++ "Discussion: " ++ topicTitle.pyStr ++ " (ID: " ++ topicId ++ ")\n\n"
  ++ "Overview: " ++ toString tp ++ "/" ++ toString ts ++ " students participated "
  ++ participationOverviewSuffix tp ts
  ++ "  Full participation (post + reply): " ++ toString b.full_participants.length ++ "\n"
  ++ "  Posted only: " ++ toString b.posters_only.length ++ "\n"
  ++ "  Replied only: " ++ toString b.repliers_only.length ++ "\n"
  ++ "  Silent (no participation): " ++ toString b.silent.length ++ "\n\n"
  ++ (if b.full_participants.length != 0 then
        "Full Participants:\n"
        ++ String.join (b.full_participants.map (fun e =>
             "  - " ++ e.2.1.pyStr ++ " (ID: " ++ e.1 ++ ") - "
             ++ toString e.2.2.1 ++ " posts, " ++ toString e.2.2.2 ++ " replies\n"))
        ++ "\n"
      else "")
  ++ (if b.posters_only.length != 0 then
        "Posted Only (no replies):\n"
        ++ String.join (b.posters_only.map (fun e =>
             "  - " ++ e.2.1.pyStr ++ " (ID: " ++ e.1 ++ ") - "
             ++ toString e.2.2.1 ++ " posts\n"))
        ++ "\n"
      else "")
  ++ (if b.repliers_only.length != 0 then
        "Replied Only (no original post):\n"
        ++ String.join (b.repliers_only.map (fun e =>
             "  - " ++ e.2.1.pyStr ++ " (ID: " ++ e.1 ++ ") - "
             ++ toString e.2.2.2 ++ " replies\n"))
        ++ "\n"
      else "")
  ++ (if b.silent.length != 0 then
        "Silent Students (no participation):\n"
        ++ String.join (b.silent.map (fun e =>
             "  - " ++ e.2.pyStr ++ " (ID: " ++ e.1 ++ ")\n"))
        ++ "\nSilent student IDs (for bulk messaging): "
        ++ String.intercalate "," (b.silent.map (fun e => e.1)) ++ "\n"
      else "")

/-- The `get_discussion_participation_summary` handler (lines 22-169).
`rid` is the resolved course id and `rcalls` the number of network requests
the course-id resolution issued; `cdisp` is the cached display code.  The
returned log lists every Gateway interaction in program order; an `.error`
result is an escaped Python exception. -/
def get_discussion_participation_summary (rid : String) (rcalls : Nat)
    (cdisp : Option String) (gw : Gateway) (course_identifier topic_id : String) :
    Except String String × List CallEvent :=
  let log0 := [CallEvent.resolveNet rcalls]
  let studentsPath := "/courses/" ++ rid ++ "/users"
  let students := gw.fetchResp studentsPath
  let log1 := log0 ++ [CallEvent.fetchAll studentsPath]
  if students.isErrorDict then
    (.ok ("Error fetching students: " ++ students.errMsg), log1)
  else
    let entriesPath := "/courses/" ++ rid ++ "/discussion_topics/" ++ topic_id ++ "/entries"
    let entries := gw.fetchResp entriesPath
    let log2 := log1 ++ [CallEvent.fetchAll entriesPath]
    if entries.isErrorDict then
      (.ok ("Error fetching discussion entries: " ++ entries.errMsg), log2)
    else
      let topicPath := "/courses/" ++ rid ++ "/discussion_topics/" ++ topic_id
      let topicResp := gw.reqResp "get" topicPath
      let log3 := log2 ++ [CallEvent.request "get" topicPath]
      match topicTitleOf topicResp with
      | .error e => (.error e, log3)
      | .ok topicTitle =>
        let entriesList := match entries with | JVal.arr xs => xs | _ => []
        match buildParticipation entriesList with
        | .error e => (.error e, log3)
        | .ok part0 =>
          let viewPath := topicPath ++ "/view"
          let viewResp := gw.reqResp "get" viewPath
          let log4 := log3 ++ [CallEvent.request "get" viewPath]
          let part := applyView part0 viewResp
          let studentList := match students with | JVal.arr xs => xs | _ => []
          match buildStudentMap studentList with
          | .error e => (.error e, log4)
          | .ok smap =>
            let b := categorize smap part
            let courseDisplay := displayOr cdisp course_identifier
            (.ok (discussionReport courseDisplay topicTitle topic_id smap b), log4)

/-! ## Course analytics (src/canvas_mcp/tools/analytics.py)

`get_course_student_summaries` and `start_course_report`.  Both resolve the
course identifier FIRST and validate their enum parameter afterwards. -/

/-- the valid sort options of lines 38-43 -/
def valid_sort_options : List String :=
  ["name", "name_descending", "score", "score_descending",
   "participations", "participations_descending",
   "page_views", "page_views_descending"]

/-- lines 67-68: `sum(s.get(key, 0) or 0 for s in students)`; a non-numeric
field value raises at the first offending element -/
def sumField (key : String) : List JVal → Except String PyNum
  | [] => .ok 0
  | s :: rest => do
    let v ← s.pyGet key (JVal.num 0)
    let q ← (orZero v).asNum
    let r ← sumField key rest
    .ok (q.add r)

/-- the three attention lists built by the loop of lines 75-94 -/
structure AnalyticsBuckets where
  no_activity : List JVal
  low_engagement : List JVal
  high_tardiness : List (JVal × JVal × JVal)
  deriving Repr

/-- one iteration of the classification loop of lines 75-94, returning the
classification flags, the display name and the tardiness counts for this
student -/
def classifyStudent (s : JVal) : Except String (Bool × Bool × Bool × JVal × JVal × JVal) := do
  let pvv ← s.pyGet "page_views" (JVal.num 0)
  let page_views := orZero pvv
  let pav ← s.pyGet "participations" (JVal.num 0)
  let participations := orZero pav
  let tardiness ← s.pyGet "tardiness_breakdown" (JVal.obj [])
  let latev ← tardiness.pyGet "late" (JVal.num 0)
  let late_count := orZero latev
  let missv ← tardiness.pyGet "missing" (JVal.num 0)
  let missing_count := orZero missv
  let idv ← s.pyGet "id" (JVal.str "Unknown")
  let namev ← s.pyGet "name" (JVal.str ("Student " ++ idv.pyStr))
  let noAct := page_views.pyEqNum 0 && participations.pyEqNum 0
  let lowEng ←
    if noAct then pure false
    else do
      let c1 ← page_views.pyLtNum 10
      if c1 then participations.pyLtNum 5 else pure false
  let tardy ← do
    let c1 ← missing_count.pyGtNum 2
    if c1 then pure true else late_count.pyGtNum 3
  .ok (noAct, lowEng, tardy, namev, late_count, missing_count)

/-- the classification loop of lines 71-94 over all students -/
def classifyStudents : List JVal → Except String AnalyticsBuckets
  | [] => .ok ⟨[], [], []⟩
  | s :: rest => do
    let (noAct, lowEng, tardy, namev, late, miss) ← classifyStudent s
    let b ← classifyStudents rest
    let b1 :=
      if noAct then { b with no_activity := namev :: b.no_activity }
      else if lowEng then { b with low_engagement := namev :: b.low_engagement }
      else b
    .ok (if tardy then { b1 with high_tardiness := (namev, late, miss) :: b1.high_tardiness } else b1)

/-- lines 105-106: the two average lines, each guarded by
`if total_students > 0 else ""` so a zero denominator yields an empty line
instead of a division -/
def averageLines (total_students : Nat) (total_page_views total_participations : PyNum) :
    List String :=
  [if total_students > 0 then
     "Average Page Views per Student: "
     ++ fmt1 (total_page_views.div (PyNum.ofNat total_students))
   else "",
   if total_students > 0 then
     "Average Participations per Student: "
     ++ fmt1 (total_participations.div (PyNum.ofNat total_students))
   else ""]

/-- lines 111-117 / 119-125: an attention section: header, first ten names,
overflow line, blank line -/
def attentionSection (header : String) (names : List JVal) : List String :=
  if names.length != 0 then
    [header ++ " (" ++ toString names.length ++ "):"]
    ++ (names.take 10).map (fun n => "  - " ++ n.pyStr)
    ++ (if names.length > 10 then ["  ... and " ++ toString (names.length - 10) ++ " more"] else [])
    ++ [""]
  else []

/-- lines 127-133: the tardiness section -/
def tardinessSection (entries : List (JVal × JVal × JVal)) : List String :=
  if entries.length != 0 then
    ["⏰ Students with Tardiness Issues (" ++ toString entries.length ++ "):"]
    ++ (entries.take 10).map (fun e =>
         "  - " ++ e.1.pyStr ++ ": " ++ e.2.1.pyStr ++ " late, " ++ e.2.2.pyStr ++ " missing")
    ++ (if entries.length > 10 then ["  ... and " ++ toString (entries.length - 10) ++ " more"] else [])
    ++ [""]
  else []

/-- lines 136-142: the top-five section under the current sort -/
def topFiveSection (items : List JVal) : Except String (List String) := do
  let rows ← (items.take 5).mapM (fun s => do
    let idv ← s.pyGet "id" (JVal.str "Unknown")
    let namev ← s.pyGet "name" (JVal.str ("Student " ++ idv.pyStr))
    let pvv ← s.pyGet "page_views" (JVal.num 0)
    let pav ← s.pyGet "participations" (JVal.num 0)
    .ok ("  - " ++ namev.pyStr ++ ": " ++ (orZero pvv).pyStr ++ " views, "
         ++ (orZero pav).pyStr ++ " participations"))
  .ok ("Top 5 Students by Current Sort:" :: rows)

/-- The `get_course_student_summaries` handler (lines 18-144).  Note the
resolution event is logged before the `sort_by` validation, exactly as the
source resolves the course id on line 35 and validates on line 44. -/
def get_course_student_summaries (rid : String) (rcalls : Nat) (cdisp : Option String)
    (gw : Gateway) (course_identifier sort_by : String) :
    Except String String × List CallEvent :=
  let log0 := [CallEvent.resolveNet rcalls]
  if !(valid_sort_options.contains sort_by) then
    (.ok ("Error: Invalid sort_by option '" ++ sort_by ++ "'. Valid options: "
          ++ String.intercalate ", " valid_sort_options), log0)
  else
    let path := "/courses/" ++ rid ++ "/analytics/student_summaries"
    let students := gw.fetchResp path
    let log1 := log0 ++ [CallEvent.fetchAll path]
    if students.isErrorDict then
      (.ok ("Error fetching student summaries: " ++ students.errMsg), log1)
    else if !students.pyTruthy then
      (.ok "No student analytics data available for this course.", log1)
    else
      let outcome : Except String String := do
        let total_students ← students.pyLen
        let items ← students.pyIterList
        let total_page_views ← sumField "page_views" items
        let total_participations ← sumField "participations" items
        let b ← classifyStudents items
        let courseDisplay := displayOr cdisp course_identifier
        let top ← if students.pyTruthy then topFiveSection items else pure []
        let lines :=
          ["Student Analytics Summary for " ++ courseDisplay,
           String.mk (List.replicate 50 '='),
           "",
           "Total Students: " ++ toString total_students,
           "Total Page Views: " ++ (JVal.num total_page_views).pyStr,
           "Total Participations: " ++ (JVal.num total_participations).pyStr]
          ++ averageLines total_students total_page_views total_participations
          ++ [""]
          ++ attentionSection "⚠️ Students with No Activity" b.no_activity
          ++ attentionSection "📉 Students with Low Engagement" b.low_engagement
          ++ tardinessSection b.high_tardiness
          ++ top
        .ok (String.intercalate "\n" lines)
      (outcome, log1)

/-- the valid report types of lines 638-642 -/
def valid_report_types : List String :=
  ["grade_export_csv", "student_assignment_outcome_map_csv", "provisioning_csv"]

/-- The `start_course_report` handler (lines 617-678); the course id is
resolved on line 635, before the report-type validation of line 643. -/
def start_course_report (rid : String) (rcalls : Nat) (cdisp : Option String)
    (gw : Gateway) (course_identifier report_type : String) :
    Except String String × List CallEvent :=
  let log0 := [CallEvent.resolveNet rcalls]
  if !(valid_report_types.contains report_type) then
    (.ok ("Error: Invalid report type '" ++ report_type ++ "'. Valid options: "
          ++ String.intercalate ", " valid_report_types), log0)
  else
    let path := "/courses/" ++ rid ++ "/reports/" ++ report_type
    let resp := gw.reqResp "post" path
    let log1 := log0 ++ [CallEvent.request "post" path]
    if resp.isErrorDict then
      (.ok ("Error starting report: " ++ resp.errMsg), log1)
    else if !resp.pyTruthy then
      (.ok "Failed to start report - no response received.", log1)
    else
      let outcome : Except String String := do
        let report_id ← resp.pyGet "id" JVal.null
        let status ← resp.pyGet "status" (JVal.str "unknown")
        let progress ← resp.pyGet "progress" (JVal.num 0)
        let courseDisplay := displayOr cdisp course_identifier
        let lines :=
          ["Report Started for " ++ courseDisplay,
           String.mk (List.replicate 50 '='),
           "",
           "Report Type: " ++ report_type,
           "Report ID: " ++ report_id.pyStr,
           "Status: " ++ status.pyStr,
           "Progress: " ++ progress.pyStr ++ "%",
           "",
           "Use get_report_status('" ++ course_identifier ++ "', '" ++ report_type ++ "', "
             ++ report_id.pyStr ++ ") to check progress.",
           "",
           "Note: Large reports may take several minutes to generate."]
        .ok (String.intercalate "\n" lines)
      (outcome, log1)

/-! ## Enrollment (src/canvas_mcp/tools/enrollment.py)

`enroll_user` validates its two enum parameters BEFORE resolving the course
identifier (lines 90-101), so a rejected invocation performs no network
interaction at all. -/

/-- the valid enrollment types of lines 90-93 -/
def valid_types : List String :=
  ["StudentEnrollment", "TeacherEnrollment", "TaEnrollment",
   "ObserverEnrollment", "DesignerEnrollment"]

/-- the valid enrollment states of line 97 -/
def valid_states : List String :=
  ["active", "invited", "creation_pending", "inactive"]

/-- The `enroll_user` handler (lines 71-131).  The `course_identifier`
argument only feeds the course-id resolution, which the caller performs and
summarises in `rid`/`rcalls`. -/
def enroll_user (rid : String) (rcalls : Nat) (gw : Gateway)
    (user_id enrollment_type enrollment_state : String) :
    Except String String × List CallEvent :=
  if !(valid_types.contains enrollment_type) then
    (.ok ("Invalid enrollment_type '" ++ enrollment_type ++ "'. Must be one of: "
          ++ String.intercalate ", " valid_types), [])
  else if !(valid_states.contains enrollment_state) then
    (.ok ("Invalid enrollment_state '" ++ enrollment_state ++ "'. Must be one of: "
          ++ String.intercalate ", " valid_states), [])
  else
    let log0 := [CallEvent.resolveNet rcalls]
    let path := "/courses/" ++ rid ++ "/enrollments"
    let resp := gw.reqResp "post" path
    let log1 := log0 ++ [CallEvent.request "post" path]
    if resp.isErrorDict then
      (.ok ("Error enrolling user: " ++ resp.errMsg), log1)
    else
      let outcome : Except String String := do
        let enrollment_id ← resp.pyGet "id" JVal.null
        let role ← resp.pyGet "type" (JVal.str enrollment_type)
        let state ← resp.pyGet "enrollment_state" (JVal.str enrollment_state)
        .ok ("User " ++ user_id ++ " enrolled successfully.\n"
             ++ "Enrollment ID: " ++ enrollment_id.pyStr ++ "\n"
             ++ "Role: " ++ role.pyStr ++ "\n"
             ++ "State: " ++ state.pyStr ++ "\n"
             ++ "Course: " ++ rid)
      (outcome, log1)

/-! ## Discussion grading (grade_discussion_participation, lines 171-302) -/

/-- line 205: `points_possible = max_points or assignment.get("points_possible", 10)`.
Python `or` short-circuits on a truthy left operand, so a `max_points`
of `None` OR `0.0` falls through to the assignment's field (and only then can
`.get` raise on a non-dict assignment payload). -/
def points_possible (max_points : Option PyNum) (assignment : JVal) : Except String JVal :=
  let mj := match max_points with | some q => JVal.num q | none => JVal.null
  if mj.pyTruthy then .ok mj
  else assignment.pyGet "points_possible" (JVal.num 10)

/-- one computed grade row (lines 255-261) -/
structure GradeEntry where
  name : JVal
  posts : Nat
  replies : Nat
  raw_score : PyNum
  final_score : PyNum
  deriving Repr

/-- Python dict insertion for the grades dict of line 245 -/
def gradesInsert (m : List (String × GradeEntry)) (k : String) (v : GradeEntry) :
    List (String × GradeEntry) :=
  if m.any (fun p => p.1 == k) then
    m.map (fun p => if p.1 == k then (k, v) else p)
  else m ++ [(k, v)]

/-- the grade loop of lines 247-261: `raw_score = posts*points_for_post +
replies*points_for_reply`, `final_score = min(raw_score, points_possible)`;
`min` against a non-numeric points-possible raises, as in Python -/
def computeGradesAux (acc : List (String × GradeEntry))
    (part : List (String × Nat × Nat)) (ppp ppr : PyNum) (pp : JVal) :
    List JVal → Except String (List (String × GradeEntry))
  | [] => .ok acc
  | s :: rest => do
    let idv ← s.pyGet "id" (JVal.str "")
    let namev ← s.pyGet "name" (JVal.str "Unknown")
    let sid := idv.pyStr
    let p := lookupPR part sid
    let raw := ((PyNum.ofNat p.1).mul ppp).add ((PyNum.ofNat p.2).mul ppr)
    let ppn ← pp.asNum
    let final := raw.pymin ppn
    computeGradesAux (gradesInsert acc sid ⟨namev, p.1, p.2, raw, final⟩) part ppp ppr pp rest

/-- grades computed for the fetched student list (lines 243-261) -/
def computeGrades (studentList : List JVal) (part : List (String × Nat × Nat))
    (ppp ppr : PyNum) (pp : JVal) : Except String (List (String × GradeEntry)) :=
  computeGradesAux [] part ppp ppr pp studentList

/-- stable insertion into a list sorted by final score descending: the new
element goes after every element with an equal or larger key -/
def insertByFinalDesc (x : String × GradeEntry) :
    List (String × GradeEntry) → List (String × GradeEntry)
  | [] => [x]
  | y :: ys =>
    if y.2.final_score.blt x.2.final_score then x :: y :: ys
    else y :: insertByFinalDesc x ys

/-- line 273: `sorted(grades.items(), key=final_score, reverse=True)` —
Python's sort is stable, as is this insertion sort -/
def sortByFinalDesc (grades : List (String × GradeEntry)) : List (String × GradeEntry) :=
  grades.foldl (fun acc g => insertByFinalDesc g acc) []

/-- lines 265-271: the report header; it starts with `"DRY RUN - "` exactly
when `dry_run` is set -/
def gradeReportHeader (dry_run : Bool) (courseDisplay : String) (aname : JVal)
    (assignment_id : String) (ppp ppr : PyNum) (pp : JVal) : String :=
  (if dry_run then "DRY RUN - " else "")
  ++ "Discussion Participation Grading\n"
  ++ "Course: " ++ courseDisplay ++ "\n"
  ++ "Assignment: " ++ aname.pyStr ++ " (ID: " ++ assignment_id ++ ")\n"
  ++ "Points: " ++ ppp.floatRepr ++ "/post, " ++ ppr.floatRepr ++ "/reply, max "
  ++ pp.pyStr ++ "\n\n"
  ++ padRight "Name" 30 ++ " " ++ padRight "Posts" 6 ++ " " ++ padRight "Replies" 8
  ++ " " ++ padRight "Score" 8 ++ "\n"
  ++ String.mk (List.replicate 55 '-') ++ "\n"

/-- lines 273-274: the grade table -/
def gradeTable (grades : List (String × GradeEntry)) : String :=
  String.join ((sortByFinalDesc grades).map (fun g =>
    padRight g.2.name.pyStr 30 ++ " " ++ padRight (toString g.2.posts) 6 ++ " "
    ++ padRight (toString g.2.replies) 8 ++ " " ++ padRight (fmt1 g.2.final_score) 8 ++ "\n"))

/-- The `grade_discussion_participation` handler (lines 171-302).  With
`dry_run` set the submission loop of lines 280-299 is never reached, so the
log contains only read traffic. -/
def grade_discussion_participation (rid : String) (rcalls : Nat) (cdisp : Option String)
    (gw : Gateway) (course_identifier topic_id assignment_id : String)
    (points_for_post points_for_reply : PyNum) (max_points : Option PyNum) (dry_run : Bool) :
    Except String String × List CallEvent :=
  let log0 := [CallEvent.resolveNet rcalls]
  let assignmentPath := "/courses/" ++ rid ++ "/assignments/" ++ assignment_id
  let assignment := gw.reqResp "get" assignmentPath
  let log1 := log0 ++ [CallEvent.request "get" assignmentPath]
  if assignment.isErrorDict then
    (.ok ("Error fetching assignment: " ++ assignment.errMsg), log1)
  else
    match points_possible max_points assignment with
    | .error e => (.error e, log1)
    | .ok ppv =>
      let studentsPath := "/courses/" ++ rid ++ "/users"
      let students := gw.fetchResp studentsPath
      let log2 := log1 ++ [CallEvent.fetchAll studentsPath]
      if students.isErrorDict then
        (.ok ("Error fetching students: " ++ students.errMsg), log2)
      else
        let entriesPath := "/courses/" ++ rid ++ "/discussion_topics/" ++ topic_id ++ "/entries"
        let entries := gw.fetchResp entriesPath
        let log3 := log2 ++ [CallEvent.fetchAll entriesPath]
        if entries.isErrorDict then
          (.ok ("Error fetching entries: " ++ entries.errMsg), log3)
        else
          let entriesList := match entries with | JVal.arr xs => xs | _ => []
          match buildParticipation entriesList with
          | .error e => (.error e, log3)
          | .ok part =>
            let studentList := match students with | JVal.arr xs => xs | _ => []
            match computeGrades studentList part points_for_post points_for_reply ppv with
            | .error e => (.error e, log3)
            | .ok grades =>
              let courseDisplay := displayOr cdisp course_identifier
              match assignment.pyGet "name" (JVal.str "Unknown") with
              | .error e => (.error e, log3)
              | .ok aname =>
                let header := gradeReportHeader dry_run courseDisplay aname assignment_id
                  points_for_post points_for_reply ppv
                let table := gradeTable grades
                if dry_run then
                  (.ok (header ++ table ++ "\nDry run complete. Set dry_run=False to submit "
                        ++ toString grades.length ++ " grades."), log3)
                else
                  let submitPath := fun (sid : String) =>
                    "/courses/" ++ rid ++ "/assignments/" ++ assignment_id
                    ++ "/submissions/" ++ sid
                  let log4 := log3 ++ grades.map (fun g => CallEvent.request "put" (submitPath g.1))
                  let failed := (grades.filter (fun g =>
                    (gw.reqResp "put" (submitPath g.1)).isErrorDict)).length
                  let successful := grades.length - failed
                  (.ok (header ++ table ++ "\nGrading complete: " ++ toString successful
                        ++ " submitted, " ++ toString failed ++ " failed."), log4)

/-! ## Concrete scenarios used by the claims -/

/-- a fixture page of `n` numbered items starting at `start` -/
def demoPage (start n : Nat) : List JVal :=
  (List.range n).map (fun i => JVal.num (PyNum.ofNat (start + i)))

/-- pages 100/100/42, all successful -/
def demoPages : List PageResult :=
  [PageResult.success (demoPage 0 100), PageResult.success (demoPage 100 100),
   PageResult.success (demoPage 200 42)]

/-- the same fixture with page 2 failing -/
def demoPagesFailing : List PageResult :=
  [PageResult.success (demoPage 0 100), PageResult.failure "page 2 failed",
   PageResult.success (demoPage 200 42)]

/-- an upstream search that knows the course code CS101 (id 7) -/
def demoSearch : CourseSearch :=
  ⟨fun c => if c == "CS101" then some (7, "CS101") else none⟩

/-- an upstream search that knows the non-numeric course code badm_554 -/
def codeSearch : CourseSearch :=
  ⟨fun c => if c == "badm_554" then some (12345, "BADM 554") else none⟩

/-- a Gateway whose every response is null (never consulted in the
validation-failure scenarios) -/
def nullGateway : Gateway :=
  ⟨fun _ => JVal.null, fun _ _ => JVal.null⟩

/-- a Gateway whose every response is a JSON array — a malformed payload for
the single-object endpoints -/
def listGateway : Gateway :=
  ⟨fun _ => JVal.arr [], fun _ _ => JVal.arr []⟩

/-- a student-map entry together with its participation counts, as the
categorization loop stores it -/
def enrichEntry (part : List (String × Nat × Nat)) (e : String × JVal) :
    String × JVal × Nat × Nat :=
  (e.1, e.2, (lookupPR part e.1).1, (lookupPR part e.1).2)

/-- the enrolled students of the participation scenario: exactly the users
with ids 1 and 2 -/
def scenarioStudents : List JVal :=
  [JVal.obj [("id", JVal.num 1)], JVal.obj [("id", JVal.num 2)]]

/-- the discussion entries of the participation scenario:
`[{"user_id": 1, "recent_replies": [{"user_id": 1}]}]` -/
def scenarioEntries : List JVal :=
  [JVal.obj [("user_id", JVal.num 1),
             ("recent_replies", JVal.arr [JVal.obj [("user_id", JVal.num 1)]])]]

/-- the Gateway of the participation scenario: students and entries as above,
topic and view requests answered with a plain topic object -/
def scenarioGateway : Gateway :=
  ⟨fun path => if path == "/courses/12345/users" then JVal.arr scenarioStudents
               else JVal.arr scenarioEntries,
   fun _ _ => JVal.obj [("title", JVal.str "Test Discussion")]⟩

/-- the zero-activity student of the analytics scenario:
`[{"page_views": 0, "participations": 0}]` -/
def zeroActivityStudent : JVal :=
  JVal.obj [("page_views", JVal.num 0), ("participations", JVal.num 0)]

/-- the Gateway of the analytics scenario -/
def zeroActivityGateway : Gateway :=
  ⟨fun _ => JVal.arr [zeroActivityStudent], fun _ _ => JVal.null⟩

/-- The final score the claim describes: `min(posts*points_for_post +
replies*points_for_reply, points_possible)` with `points_possible` equal to
`max_points` whenever it is supplied, else the assignment's `points_possible`
field, else 10.  (Definition follows the claim's words, for comparison with
the code's computation.) -/
def claim_final_score (posts replies : Nat) (ppp ppr : PyNum) (max_points : Option PyNum)
    (assignment_pp : Option PyNum) : PyNum :=
  (((PyNum.ofNat posts).mul ppp).add ((PyNum.ofNat replies).mul ppr)).pymin
    (max_points.getD (assignment_pp.getD 10))

/-- the assignment payload of the grading scenarios: points_possible 10 -/
def scenarioAssignment : JVal :=
  JVal.obj [("id", JVal.num 100), ("name", JVal.str "Discussion Grade"),
            ("points_possible", JVal.num 10)]

/-- the Gateway of the grading scenarios: one enrolled student (id 1), one
entry with one reply, assignment as above -/
def gradingGateway : Gateway :=
  ⟨fun path => if path == "/courses/12345/users" then
                 JVal.arr [JVal.obj [("id", JVal.num 1), ("name", JVal.str "Alice")]]
               else JVal.arr scenarioEntries,
   fun _ _ => scenarioAssignment⟩

/-- the one enrolled student of the grading scenarios -/
def aliceStudent : JVal :=
  JVal.obj [("id", JVal.num 1), ("name", JVal.str "Alice")]

/-! ## Helper lemmas -/

/-- splitting a string built from a known prefix -/
theorem startsWithParts (pre mid s : String) : ∃ rest, (pre ++ mid) ++ s = pre ++ rest :=
  ⟨mid ++ s, String.append_assoc pre mid s⟩

/-- `min(a, b)` never exceeds `b` -/
theorem pymin_ble (a b : PyNum) : (a.pymin b).ble b = true := by
  unfold PyNum.pymin
  split
  · simp [PyNum.ble]
  · rename_i h
    simp [PyNum.blt] at h
    simp [PyNum.ble]
    omega

/-- a member of the grades dict after insertion is an old member or carries
the inserted row -/
theorem gradesInsert_mem (m : List (String × GradeEntry)) (k : String) (v : GradeEntry)
    (g : String × GradeEntry) (hg : g ∈ gradesInsert m k v) : g ∈ m ∨ g.2 = v := by
  unfold gradesInsert at hg
  split at hg
  · rcases List.mem_map.mp hg with ⟨p, hp, he⟩
    split at he
    · right; rw [← he]
    · left; rw [← he]; exact hp
  · rcases List.mem_append.mp hg with h | h
    · left; exact h
    · right; simp at h; rw [h]

/-- the shape invariant of every grade row the loop computes -/
def GoodGrade (ppp ppr ppn : PyNum) (g : GradeEntry) : Prop :=
  g.raw_score = ((PyNum.ofNat g.posts).mul ppp).add ((PyNum.ofNat g.replies).mul ppr)
  ∧ g.final_score = g.raw_score.pymin ppn
  ∧ g.final_score.ble ppn = true

/-- every row produced by the grade loop satisfies the shape invariant -/
theorem computeGradesAux_good (part : List (String × Nat × Nat)) (ppp ppr : PyNum)
    (pp : JVal) (ppn : PyNum) (hpp : pp.asNum = .ok ppn) :
    ∀ (students : List JVal) (acc gs : List (String × GradeEntry)),
      (∀ g ∈ acc, GoodGrade ppp ppr ppn g.2) →
      computeGradesAux acc part ppp ppr pp students = .ok gs →
      ∀ g ∈ gs, GoodGrade ppp ppr ppn g.2 := by
  intro students
  induction students with
  | nil =>
    intro acc gs hacc heq
    simp only [computeGradesAux] at heq
    injection heq with h
    rw [← h]
    exact hacc
  | cons s rest ih =>
    intro acc gs hacc heq
    simp only [computeGradesAux] at heq
    cases hid : s.pyGet "id" (JVal.str "") with
    | error e => rw [hid] at heq; simp [Bind.bind, Except.bind] at heq
    | ok idv =>
      rw [hid] at heq
      cases hname : s.pyGet "name" (JVal.str "Unknown") with
      | error e => rw [hname] at heq; simp [Bind.bind, Except.bind] at heq
      | ok namev =>
        rw [hname, hpp] at heq
        simp only [Bind.bind, Except.bind] at heq
        refine ih _ gs ?_ heq
        intro g hg
        rcases gradesInsert_mem _ _ _ g hg with h | h
        · exact hacc g h
        · rw [h]
          exact ⟨rfl, rfl, pymin_ble _ _⟩

/-- the categorization loop is the partition of the student map by the
has-posts/has-replies flags -/
theorem categorize_eq_filters (smap : List (String × JVal)) (part : List (String × Nat × Nat)) :
    categorize smap part =
      ⟨(smap.filter (fun e => hasPosts part e.1 && hasReplies part e.1)).map (enrichEntry part),
       (smap.filter (fun e => hasPosts part e.1 && !(hasReplies part e.1))).map (enrichEntry part),
       (smap.filter (fun e => !(hasPosts part e.1) && hasReplies part e.1)).map (enrichEntry part),
       smap.filter (fun e => !(hasPosts part e.1) && !(hasReplies part e.1))⟩ := by
  induction smap with
  | nil => rfl
  | cons e rest ih =>
    obtain ⟨sid, name⟩ := e
    cases h1 : hasPosts part sid <;> cases h2 : hasReplies part sid <;>
      simp [categorize, ih, List.filter_cons, h1, h2, enrichEntry]

/-- the four category sizes add up to the student-map size -/
theorem categorize_length_sum (smap : List (String × JVal)) (part : List (String × Nat × Nat)) :
    (categorize smap part).full_participants.length
    + (categorize smap part).posters_only.length
    + (categorize smap part).repliers_only.length
    + (categorize smap part).silent.length = smap.length := by
  induction smap with
  | nil => rfl
  | cons e rest ih =>
    obtain ⟨sid, name⟩ := e
    cases h1 : hasPosts part sid <;> cases h2 : hasReplies part sid <;>
      simp [categorize, h1, h2] <;> omega

/-! ## Claim theorems -/

/-- C5: `fetch_all_paginated_results` returns the concatenation of all pages
in server order when every page succeeds (242 elements for pages of sizes
100/100/42), and when some page fails — every earlier page having succeeded —
it returns that failure, carrying none of the elements of the already-fetched
earlier pages. -/
theorem fetch_all_concat_or_first_failure :
    (∀ pages : List (List JVal),
       fetch_all_paginated_results (pages.map PageResult.success) = .ok pages.flatten)
    ∧ (∀ (pre : List (List JVal)) (m : String) (post : List PageResult),
       fetch_all_paginated_results (pre.map PageResult.success ++ PageResult.failure m :: post)
         = .error m)
    ∧ (fetch_all_paginated_results demoPages).map List.length = .ok 242
    ∧ fetch_all_paginated_results demoPagesFailing = .error "page 2 failed" := by
  have hall : ∀ pages : List (List JVal),
      fetch_all_paginated_results (pages.map PageResult.success) = .ok pages.flatten := by
    intro pages
    induction pages with
    | nil => rfl
    | cons p rest ih => simp [fetch_all_paginated_results, ih]
  refine ⟨hall, ?_, by rfl, by rfl⟩
  intro pre m post
  induction pre with
  | nil => rfl
  | cons p rest ih => simp [fetch_all_paginated_results, ih]

/-- C6: a purely numeric course identifier is returned unchanged by the
resolver, with an unchanged cache and zero network requests. -/
theorem get_course_id_numeric_no_network (search : CourseSearch) (cache : CourseCache)
    (s : String) (h : isNumericLooking s = true) :
    get_course_id search cache s = (.ok (strToNat s), cache, 0) := by
  simp [get_course_id, h]

/-- witness for C6 at the identifier "12345" -/
theorem get_course_id_numeric_no_network_witness :
    isNumericLooking "12345" = true
    ∧ get_course_id demoSearch ⟨[]⟩ "12345" = (.ok 12345, (⟨[]⟩ : CourseCache), 0) :=
  ⟨by decide, get_course_id_numeric_no_network demoSearch ⟨[]⟩ "12345" (by decide)⟩

/-- C7: resolving the course code "CS101" (not yet cached; the upstream
search returns a course whose code field is "CS101") stores the mapping and
issues one request, and the display-code reverse lookup on the resolved id —
the round trip `display_code(resolve("CS101"))` — returns "CS101". -/
theorem display_code_round_trip (search : CourseSearch) (cache : CourseCache) (n : Nat)
    (hsearch : search.byCode "CS101" = some (n, "CS101"))
    (hmiss : cache.mapping.find? (fun p => p.1 == "CS101") = none) :
    get_course_id search cache "CS101"
      = (.ok n, ({ mapping := ("CS101", n) :: cache.mapping } : CourseCache), 1)
    ∧ get_course_code { mapping := ("CS101", n) :: cache.mapping } n = some "CS101" := by
  have hnum : isNumericLooking "CS101" = false := by decide
  constructor
  · simp [get_course_id, hnum, hmiss, hsearch]
  · simp [get_course_code, List.find?]

/-- witness for C7: a fresh resolution of "CS101" against a cache already
holding another course -/
theorem display_code_round_trip_witness :
    get_course_id demoSearch ⟨[("MATH200", 42)]⟩ "CS101"
      = (.ok 7, ({ mapping := [("CS101", 7), ("MATH200", 42)] } : CourseCache), 1)
    ∧ get_course_code ⟨[("CS101", 7), ("MATH200", 42)]⟩ 7 = some "CS101" :=
  display_code_round_trip demoSearch ⟨[("MATH200", 42)]⟩ 7 (by decide) (by decide)

/-- C10: the four participation categories partition the student map: the
category sizes sum to the student count, the reported participant count is
the non-silent count (student count minus silent count), the buckets are the
filters of the map by the has-posts/has-replies flags, and for every student
id exactly one of the four category conditions holds. -/
theorem discussion_categories_partition :
    ∀ (smap : List (String × JVal)) (part : List (String × Nat × Nat)),
      (categorize smap part).full_participants.length
        + (categorize smap part).posters_only.length
        + (categorize smap part).repliers_only.length
        + (categorize smap part).silent.length = smap.length
      ∧ total_participants smap (categorize smap part)
          = (categorize smap part).full_participants.length
            + (categorize smap part).posters_only.length
            + (categorize smap part).repliers_only.length
      ∧ categorize smap part =
          ⟨(smap.filter (fun e => hasPosts part e.1 && hasReplies part e.1)).map (enrichEntry part),
           (smap.filter (fun e => hasPosts part e.1 && !(hasReplies part e.1))).map (enrichEntry part),
           (smap.filter (fun e => !(hasPosts part e.1) && hasReplies part e.1)).map (enrichEntry part),
           smap.filter (fun e => !(hasPosts part e.1) && !(hasReplies part e.1))⟩
      ∧ ∀ sid : String,
          (hasPosts part sid && hasReplies part sid).toNat
          + (hasPosts part sid && !(hasReplies part sid)).toNat
          + (!(hasPosts part sid) && hasReplies part sid).toNat
          + (!(hasPosts part sid) && !(hasReplies part sid)).toNat = 1 := by
  intro smap part
  have hsum := categorize_length_sum smap part
  refine ⟨hsum, ?_, categorize_eq_filters smap part, ?_⟩
  · unfold total_participants
    omega
  · intro sid
    cases h1 : hasPosts part sid <;> cases h2 : hasReplies part sid <;> simp [h1, h2]

/-- C1 (amended): an out-of-enum parameter is rejected with an error string
enumerating the valid options, and zero `make_canvas_request` /
`fetch_all_paginated_results` invocations occur; `enroll_user` validates
before any network interaction at all, while `get_course_student_summaries`
and `start_course_report` perform the course-id resolution — network-backed
for an uncached non-numeric identifier — before validating, so their call log
holds exactly that resolution. -/
theorem enum_validation_rejects_before_fetch :
    (∀ (rid : String) (rcalls : Nat) (cdisp : Option String) (gw : Gateway) (ci sb : String),
       valid_sort_options.contains sb = false →
       get_course_student_summaries rid rcalls cdisp gw ci sb
         = (.ok ("Error: Invalid sort_by option '" ++ sb ++ "'. Valid options: "
                 ++ String.intercalate ", " valid_sort_options),
            [CallEvent.resolveNet rcalls]))
    ∧ (∀ (rid : String) (rcalls : Nat) (cdisp : Option String) (gw : Gateway) (ci rt : String),
       valid_report_types.contains rt = false →
       start_course_report rid rcalls cdisp gw ci rt
         = (.ok ("Error: Invalid report type '" ++ rt ++ "'. Valid options: "
                 ++ String.intercalate ", " valid_report_types),
            [CallEvent.resolveNet rcalls]))
    ∧ (∀ (rid : String) (rcalls : Nat) (gw : Gateway) (uid et es : String),
       valid_types.contains et = false →
       enroll_user rid rcalls gw uid et es
         = (.ok ("Invalid enrollment_type '" ++ et ++ "'. Must be one of: "
                 ++ String.intercalate ", " valid_types), []))
    ∧ (∀ (rid : String) (rcalls : Nat) (gw : Gateway) (uid et es : String),
       valid_types.contains et = true →
       valid_states.contains es = false →
       enroll_user rid rcalls gw uid et es
         = (.ok ("Invalid enrollment_state '" ++ es ++ "'. Must be one of: "
                 ++ String.intercalate ", " valid_states), [])) := by
  refine ⟨?_, ?_, ?_, ?_⟩ <;> intros <;>
    simp_all [get_course_student_summaries, start_course_report, enroll_user]

/-- witness for C1 (amended): concrete rejected invocations of all three
handlers -/
theorem enum_validation_rejects_before_fetch_witness :
    get_course_student_summaries "12345" 0 none nullGateway "12345" "bogus"
      = (.ok ("Error: Invalid sort_by option 'bogus'. Valid options: "
              ++ String.intercalate ", " valid_sort_options), [CallEvent.resolveNet 0])
    ∧ start_course_report "12345" 0 none nullGateway "12345" "bogus"
      = (.ok ("Error: Invalid report type 'bogus'. Valid options: "
              ++ String.intercalate ", " valid_report_types), [CallEvent.resolveNet 0])
    ∧ enroll_user "12345" 0 nullGateway "77" "Bogus" "active"
      = (.ok ("Invalid enrollment_type 'Bogus'. Must be one of: "
              ++ String.intercalate ", " valid_types), [])
    ∧ enroll_user "12345" 0 nullGateway "77" "StudentEnrollment" "bogus"
      = (.ok ("Invalid enrollment_state 'bogus'. Must be one of: "
              ++ String.intercalate ", " valid_states), []) :=
  ⟨enum_validation_rejects_before_fetch.1 "12345" 0 none nullGateway "12345" "bogus" (by decide),
   enum_validation_rejects_before_fetch.2.1 "12345" 0 none nullGateway "12345" "bogus" (by decide),
   enum_validation_rejects_before_fetch.2.2.1 "12345" 0 nullGateway "77" "Bogus" "active" (by decide),
   enum_validation_rejects_before_fetch.2.2.2 "12345" 0 nullGateway "77" "StudentEnrollment"
     "bogus" (by decide) (by decide)⟩

/-- C1 is false as stated: `get_course_student_summaries` resolves the course
identifier before validating `sort_by`.  Resolving the non-numeric, uncached
identifier "badm_554" issues one upstream request; the invocation with
`sort_by="bogus"` then returns the validation error string, yet its call log
records that one network-backed course-id resolution — not zero. -/
theorem sort_validation_after_resolution_counterexample :
    get_course_id codeSearch ⟨[]⟩ "badm_554"
      = (.ok 12345, ({ mapping := [("badm_554", 12345)] } : CourseCache), 1)
    ∧ (get_course_student_summaries "12345" 1 none nullGateway "badm_554" "bogus").1
        = .ok ("Error: Invalid sort_by option 'bogus'. Valid options: "
               ++ String.intercalate ", " valid_sort_options)
    ∧ netResolutions (get_course_student_summaries "12345" 1 none nullGateway "badm_554" "bogus").2
        = 1
    ∧ (1 : Nat) ≠ 0 :=
  ⟨rfl, rfl, rfl, by decide⟩

/-- C2 fails on the code: when the topic-details request returns a JSON array
(a malformed, non-dict payload), line 60 of discussion_analytics.py takes the
`.get` branch precisely because the payload is not a dict, and the
AttributeError escapes `get_discussion_participation_summary` instead of an
error string being returned. -/
theorem participation_summary_exception_on_list_payload :
    get_discussion_participation_summary "12345" 0 none listGateway "12345" "444"
      = (.error "AttributeError: .get on non-dict",
         [CallEvent.resolveNet 0,
          CallEvent.fetchAll "/courses/12345/users",
          CallEvent.fetchAll "/courses/12345/discussion_topics/444/entries",
          CallEvent.request "get" "/courses/12345/discussion_topics/444"]) := rfl

set_option maxRecDepth 8192 in
/-- C3: on discussion entries `[{"user_id":1,"recent_replies":[{"user_id":1}]}]`
with enrolled students exactly the users 1 and 2, student 1 (one post, one
reply) is a full participant, student 2 is silent, the silent-id list string
is "2", and the end-to-end report prints exactly that. -/
theorem participation_scenario_classification :
    buildParticipation scenarioEntries = .ok [("1", 1, 1)]
    ∧ buildStudentMap scenarioStudents = .ok [("1", JVal.str "Unknown"), ("2", JVal.str "Unknown")]
    ∧ categorize [("1", JVal.str "Unknown"), ("2", JVal.str "Unknown")] [("1", 1, 1)]
        = ⟨[("1", JVal.str "Unknown", 1, 1)], [], [], [("2", JVal.str "Unknown")]⟩
    ∧ String.intercalate ","
        ((categorize [("1", JVal.str "Unknown"), ("2", JVal.str "Unknown")] [("1", 1, 1)]).silent.map
          (fun e => e.1)) = "2"
    ∧ (get_discussion_participation_summary "12345" 0 (some "CS101")
         scenarioGateway "12345" "444").1
        = .ok ("Discussion Participation Summary\nCourse: CS101\nDiscussion: Test Discussion (ID: 444)\n\nOverview: 1/2 students participated (50%)\n  Full participation (post + reply): 1\n  Posted only: 0\n  Replied only: 0\n  Silent (no participation): 1\n\nFull Participants:\n  - Unknown (ID: 1) - 1 posts, 1 replies\n\nSilent Students (no participation):\n  - Unknown (ID: 2)\n\nSilent student IDs (for bulk messaging): 2\n") :=
  ⟨rfl, rfl, rfl, rfl, rfl⟩

set_option maxRecDepth 8192 in
/-- C4: the student `{"page_views":0,"participations":0}` is classified under
No Activity; the average lines are guarded so a zero student count yields
empty (omitted) lines, the participation percentage is guarded so a zero
denominator yields the literal "(0%)", and the end-to-end summary for that
student renders with 0.0 averages and the No Activity section. -/
theorem zero_activity_classification_and_guards :
    classifyStudents [zeroActivityStudent] = .ok ⟨[JVal.str "Student Unknown"], [], []⟩
    ∧ (∀ pv pa : PyNum, averageLines 0 pv pa = ["", ""])
    ∧ (∀ tp : Nat, participationOverviewSuffix tp 0 = "(0%)\n")
    ∧ (get_course_student_summaries "12345" 0 (some "CS101")
         zeroActivityGateway "12345" "name").1
        = .ok ("Student Analytics Summary for CS101\n" ++ String.mk (List.replicate 50 '=') ++ "\n\nTotal Students: 1\nTotal Page Views: 0\nTotal Participations: 0\nAverage Page Views per Student: 0.0\nAverage Participations per Student: 0.0\n\n⚠️ Students with No Activity (1):\n  - Student Unknown\n\nTop 5 Students by Current Sort:\n  - Student Unknown: 0 views, 0 participations") :=
  ⟨rfl, fun _ _ => rfl, fun _ => rfl, rfl⟩

/-- C8: with `dry_run` set (the default) `grade_discussion_participation`
issues no mutating Gateway call at all — every logged `make_canvas_request`
uses the "get" method, so no "put" on the submissions endpoint ever happens
and upstream state is untouched — and every string it returns either is the
report, which begins with "DRY RUN - ", or is one of the
"Error fetching ..." early returns. -/
theorem grade_dry_run_no_mutation (rid : String) (rcalls : Nat) (cdisp : Option String)
    (gw : Gateway) (ci ti ai : String) (ppp ppr : PyNum) (mp : Option PyNum) :
    ((grade_discussion_participation rid rcalls cdisp gw ci ti ai ppp ppr mp true).2.all
       (fun e => !(isMutating e))) = true
    ∧ (∀ s, (grade_discussion_participation rid rcalls cdisp gw ci ti ai ppp ppr mp true).1
          = .ok s →
        (∃ rest, s = "DRY RUN - " ++ rest) ∨ (∃ rest, s = "Error fetching" ++ rest)) := by
  unfold grade_discussion_participation
  simp only
  split
  · exact ⟨rfl, fun s hs => by
      injection hs with h
      subst h
      exact Or.inr (startsWithParts "Error fetching" " assignment: " _)⟩
  · split
    · exact ⟨rfl, fun s hs => by cases hs⟩
    · split
      · exact ⟨rfl, fun s hs => by
          injection hs with h
          subst h
          exact Or.inr (startsWithParts "Error fetching" " students: " _)⟩
      · split
        · exact ⟨rfl, fun s hs => by
            injection hs with h
            subst h
            exact Or.inr (startsWithParts "Error fetching" " entries: " _)⟩
        · split
          · exact ⟨rfl, fun s hs => by cases hs⟩
          · split
            · exact ⟨rfl, fun s hs => by cases hs⟩
            · split
              · exact ⟨rfl, fun s hs => by cases hs⟩
              · refine ⟨rfl, fun s hs => ?_⟩
                injection hs with h
                subst h
                refine Or.inl ?_
                simp only [gradeReportHeader, if_true, String.append_assoc]
                exact ⟨_, rfl⟩

set_option maxRecDepth 8192 in
/-- witness for C8: a concrete dry run issues only "get" traffic and returns
the DRY RUN report -/
theorem grade_dry_run_no_mutation_witness :
    ((grade_discussion_participation "12345" 0 (some "CS101") gradingGateway
        "12345" "444" "100" 5 3 none true).2.all (fun e => !(isMutating e))) = true
    ∧ ((∃ rest,
          "DRY RUN - Discussion Participation Grading\nCourse: CS101\nAssignment: Discussion Grade (ID: 100)\nPoints: 5.0/post, 3.0/reply, max 10\n\nName                           Posts  Replies  Score   \n" ++ String.mk (List.replicate 55 '-') ++ "\nAlice                          1      1        8.0     \n\nDry run complete. Set dry_run=False to submit 1 grades."
            = "DRY RUN - " ++ rest)
        ∨ (∃ rest,
          "DRY RUN - Discussion Participation Grading\nCourse: CS101\nAssignment: Discussion Grade (ID: 100)\nPoints: 5.0/post, 3.0/reply, max 10\n\nName                           Posts  Replies  Score   \n" ++ String.mk (List.replicate 55 '-') ++ "\nAlice                          1      1        8.0     \n\nDry run complete. Set dry_run=False to submit 1 grades."
            = "Error fetching" ++ rest)) :=
  ⟨(grade_dry_run_no_mutation "12345" 0 (some "CS101") gradingGateway
      "12345" "444" "100" 5 3 none).1,
   (grade_dry_run_no_mutation "12345" 0 (some "CS101") gradingGateway
      "12345" "444" "100" 5 3 none).2 _ rfl⟩

/-- C9 (amended): every grade row computed by the loop has
`raw_score = posts*points_for_post + replies*points_for_reply` and
`final_score = min(raw_score, points_possible)`, never exceeding the numeric
points-possible; and `points_possible` is `max_points` when supplied AND
nonzero (Python `or` truthiness), otherwise the assignment's
`points_possible` field, defaulting to 10 — a supplied `max_points` of 0 is
ignored. -/
theorem grade_final_score_capped :
    (∀ (students : List JVal) (part : List (String × Nat × Nat)) (ppp ppr : PyNum)
       (pp : JVal) (ppn : PyNum) (gs : List (String × GradeEntry)),
       pp.asNum = .ok ppn →
       computeGrades students part ppp ppr pp = .ok gs →
       ∀ g ∈ gs,
         g.2.raw_score
             = ((PyNum.ofNat g.2.posts).mul ppp).add ((PyNum.ofNat g.2.replies).mul ppr)
         ∧ g.2.final_score = g.2.raw_score.pymin ppn
         ∧ g.2.final_score.ble ppn = true)
    ∧ (∀ (m : PyNum) (a : JVal), m.beq 0 = false →
        points_possible (some m) a = .ok (JVal.num m))
    ∧ (∀ (m : PyNum) (a : JVal), m.beq 0 = true →
        points_possible (some m) a = a.pyGet "points_possible" (JVal.num 10))
    ∧ (∀ a : JVal, points_possible none a = a.pyGet "points_possible" (JVal.num 10)) := by
  refine ⟨?_, ?_, ?_, ?_⟩
  · intro students part ppp ppr pp ppn gs hpp heq
    exact computeGradesAux_good part ppp ppr pp ppn hpp students [] gs (by simp) heq
  · intro m a h
    simp [points_possible, JVal.pyTruthy, h]
  · intro m a h
    simp [points_possible, JVal.pyTruthy, h]
  · intro a
    simp [points_possible, JVal.pyTruthy]

/-- witness for C9 (amended): the concrete row Alice/1 post/0 replies at 5
points per post against a numeric points-possible of 10 -/
theorem grade_final_score_capped_witness :
    (5 : PyNum) = ((PyNum.ofNat 1).mul 5).add ((PyNum.ofNat 0).mul 3)
    ∧ (5 : PyNum) = (5 : PyNum).pymin 10
    ∧ (5 : PyNum).ble 10 = true :=
  grade_final_score_capped.1 [aliceStudent] [("1", 1, 0)] 5 3 (JVal.num 10) 10
    [("1", ⟨JVal.str "Alice", 1, 0, 5, 5⟩)] rfl rfl
    ("1", ⟨JVal.str "Alice", 1, 0, 5, 5⟩) (by simp)

/-- C9 is false as stated: supplying `max_points = 0` does not make 0 the
points-possible.  With one post at 5 points and an assignment worth 10, the
code computes a final score of 5 (line 205's Python `or` discards the falsy
0.0 and uses the assignment's 10), while the claim's formula
`min(posts*ppp + replies*ppr, max_points)` yields 0. -/
theorem grade_final_score_claim_counterexample :
    computeGrades [aliceStudent] [("1", 1, 0)] 5 3 (JVal.num 10)
      = .ok [("1", ⟨JVal.str "Alice", 1, 0, 5, 5⟩)]
    ∧ points_possible (some 0) scenarioAssignment = .ok (JVal.num 10)
    ∧ claim_final_score 1 0 5 3 (some 0) (some 10) = 0
    ∧ (5 : PyNum) ≠ (0 : PyNum) :=
  ⟨rfl, rfl, rfl, by decide⟩
